import Mathlib

/-! Verification model of the AI-mentor chat orchestrator (`src/agent.py`).

The repository is a tool-augmented chat assistant.  The orchestration core is
the function `chat(user_input, agent_executor)` of `agent.py` together with a
handful of deterministic tools.  This file gives a shallow embedding of that
core: Python values that can sit in the global `chat_history` list are an
inductive type `PyVal`, the external agent executor is a parameter describing
its observable behaviour (return an object or raise), exceptions are the
`Except` monad, and strings are Lean `String`s (Python `s[:n]` slicing of
`str` is code-point based, matched here by slicing the character list). -/

set_option maxRecDepth 8192

namespace Agent

/-- Universe of Python values modelled for the chat history and agent results:
`None`, `str`, `int` and tuples (the history normally holds 2-tuples of
strings; malformed cached entries can be any of these shapes). -/
inductive PyVal where
  | vnone
  | vstr (s : String)
  | vint (n : Int)
  | vtuple (xs : List PyVal)

/-- Python truthiness (`bool(v)`) for the modelled value universe. -/
def truthy : PyVal → Bool
  | .vnone => false
  | .vstr s => !s.isEmpty
  | .vint n => n != 0
  | .vtuple xs => !xs.isEmpty

mutual

/-- Python `repr(v)` for the modelled values (a tuple shows as `(a, b)`, with
the trailing comma for singletons; string escaping is not modelled). -/
def pyRepr : PyVal → String
  | .vnone => "None"
  | .vstr s => "'" ++ s ++ "'"
  | .vint n => toString n
  | .vtuple xs =>
      "(" ++ String.intercalate ", " (pyReprList xs) ++
        (if xs.length = 1 then ",)" else ")")
termination_by v => sizeOf v

/-- Reprs of the elements of a tuple. -/
def pyReprList : List PyVal → List String
  | [] => []
  | x :: xs => pyRepr x :: pyReprList xs
termination_by l => sizeOf l

end

/-- Python `str(v)` for the modelled values (`str` of a tuple is its repr). -/
def pyStr : PyVal → String
  | .vnone => "None"
  | .vstr s => s
  | .vint n => toString n
  | .vtuple xs => pyRepr (.vtuple xs)

/-- Python `v == lit` where `lit` is a `str` literal: true only for an equal
string, false for every value of another type. -/
def isStrEq (v : PyVal) (lit : String) : Bool :=
  match v with
  | .vstr t => t == lit
  | _ => false

/-- Message of an entry of the formatted history passed to the agent executor:
`HumanMessage(content=...)` or `AIMessage(content=...)` of `agent.py` lines
646 and 649 (an AI message is only built from a `str`, a human message from
whatever content the cached tuple holds). -/
inductive FMsg where
  | human (content : PyVal)
  | ai (content : String)

/-- One iteration of the history-formatting loop, `agent.py` lines 642-649:
keep only 2-tuples; a `("human", content)` tuple becomes a human message; an
`("assistant", content)` tuple becomes an AI message when its content is a
truthy `str`; everything else contributes nothing. -/
def formatEntry (msg : PyVal) : Option FMsg :=
  match msg with
  | .vtuple [role, content] =>
      if isStrEq role "human" then some (.human content)
      else if isStrEq role "assistant" && truthy content then
        match content with
        | .vstr s => some (.ai s)
        | _ => none
      else none
  | _ => none

/-- The `formatted_history` built by `chat` (`agent.py` lines 641-649). -/
def formatChatHistory (hist : List PyVal) : List FMsg :=
  hist.filterMap formatEntry

/-- Result object returned by a non-raising `agent_executor.invoke` call, by
the shape cases `chat` probes (`agent.py` lines 664-673): `None`; a dict
(modelled by its key/value entries, probed via `.get('output', '')`); a
non-dict object with an `output` attribute (carrying that attribute's value
and the object's own `str()`); any other object (carried by its `str()`). -/
inductive AgentResponse where
  | rnone
  | rdict (entries : List (String × PyVal))
  | robj (out : PyVal) (strRepr : String)
  | rplain (strRepr : String)

/-- Default reply for a `None` result (`agent.py` line 665). -/
def msgRephrase : String :=
  "I'm here to help! Could you please rephrase your question or tell me more about what you need assistance with?"

/-- Default reply for a dict result with a falsy `output` field (line 669). -/
def msgTrouble : String :=
  "I'm having a bit of trouble understanding. Could you provide more details about what you need help with?"

/-- Default reply of the dead `else` on line 673 (unreachable there, since
`response is None` was handled on line 664). -/
def msgDeadElse : String :=
  "I'm here to help! What would you like to know?"

/-- Default reply substituted when the extracted candidate is empty or not a
string (`agent.py` line 676). -/
def msgEncourage : String :=
  "I want to help you! Could you tell me more about what you're looking for?"

/-- Fallback reply built when `agent_executor.invoke` raises (line 679). -/
def msgExcFallback (e : String) : String :=
  "I encountered a technical issue, but I'm still here to help! Could you try rephrasing your question? Error: " ++ e

/-- Sentinel compared against before appending to the history (line 682). -/
def sentinelNoResponse : String := "No response generated"

/-- Reply of the dead `else` of the final `return` (line 690; unreachable,
the output is never empty there). -/
def msgMentor : String :=
  "I'm here as your mentor! How can I support you today?"

/-- Reply of the top-level `except` clause of `chat` (line 695). -/
def msgGenericTech : String :=
  "I'm having a technical issue, but please try asking your question again. I'm here to support you!"

/-- Python `response.get('output', '')` on the modelled dict (line 667). -/
def dictOutput (entries : List (String × PyVal)) : PyVal :=
  (entries.lookup "output").getD (.vstr "")

/-- Raw `output` value produced by the shape-probing chain of `chat`
(`agent.py` lines 664-673), before the final string check. -/
def extractRaw (r : AgentResponse) : PyVal :=
  match r with
  | .rnone => .vstr msgRephrase
  | .rdict entries =>
      let out := dictOutput entries
      if truthy out then out else .vstr msgTrouble
  | .robj out strRepr =>
      match out with
      | .vnone => .vstr strRepr
      | o => .vstr (pyStr o)
  | .rplain strRepr => .vstr strRepr

/-- Final string check of lines 675-676: a falsy or non-`str` candidate is
replaced by the encouragement default. -/
def pyNormalize (v : PyVal) : String :=
  match v with
  | .vstr s => if s.isEmpty then msgEncourage else s
  | _ => msgEncourage

/-- Reply text extracted from a successful agent invocation (lines 661-676). -/
def extractReply (r : AgentResponse) : String :=
  pyNormalize (extractRaw r)

/-- Observable behaviour of one `agent_executor.invoke` call: return a result
object, or raise an exception carrying the message `str(e)`. -/
inductive AgentBehavior where
  | ret (r : AgentResponse)
  | exn (e : String)

/-- The inner `try` of `chat` (lines 661-679): extract a reply from the
invocation result, or catch the raised exception and build the fallback. -/
def runAgentOnce (beh : AgentBehavior) : String :=
  match beh with
  | .ret r => extractReply r
  | .exn e => msgExcFallback e

/-- History entry `("human", user_input)` appended on line 683. -/
def humanTurn (u : String) : PyVal := .vtuple [.vstr "human", .vstr u]

/-- History entry `("assistant", output)` appended on line 684. -/
def assistantTurn (a : String) : PyVal := .vtuple [.vstr "assistant", .vstr a]

/-- History update of `chat` (`agent.py` lines 681-688): append the pair of
turns when the output is truthy and differs from the sentinel, then keep only
the last 30 entries. -/
def updateHistory (hist : List PyVal) (user output : String) : List PyVal :=
  let h :=
    if output ≠ "" ∧ output ≠ sentinelNoResponse then
      hist ++ [humanTurn user, assistantTurn output]
    else hist
  if h.length > 30 then h.drop (h.length - 30) else h

/-- Body of `chat` inside the top-level `try` (`agent.py` lines 636-690),
with exceptions as `Except`: format the cached history, construct the agent
executor when the passed one is `None` (`createRes` is the environment's
outcome for `create_agent()`, the one step of the body that can raise), run
the invocation under the inner `try`, update the history, and return the
reply together with the new history (the mutated global `chat_history`). -/
def chatBody (user : String) (execOpt : Option AgentBehavior)
    (createRes : Except String AgentBehavior) (hist : List PyVal) :
    Except String (String × List PyVal) := do
  let _formatted := formatChatHistory hist
  let exec ← match execOpt with
    | some b => pure b
    | none => createRes
  let output := runAgentOnce exec
  let hist1 := updateHistory hist user output
  pure ((if output = "" then msgMentor else output), hist1)

/-- The `chat` function of `agent.py` (lines 623-695): the body wrapped in
the top-level `except` that converts any escaped exception into the generic
technical-issue reply (the global history is left as it was in that case). -/
def chat (user : String) (execOpt : Option AgentBehavior)
    (createRes : Except String AgentBehavior) (hist : List PyVal) :
    String × List PyVal :=
  match chatBody user execOpt createRes hist with
  | .ok v => v
  | .error _ => (msgGenericTech, hist)

/-! Tool: `get_current_datetime` (`agent.py` lines 29-37).  Time is modelled
as seconds since the Unix epoch; `Asia/Kolkata` has the fixed offset +5:30
(no daylight saving), so both the `zoneinfo` branch and the
`utcnow() + timedelta(hours=5, minutes=30)` fallback add the same offset.
The `try` of lines 32-34 can fail in two different ways and only one of
them is handled: `from zoneinfo import ZoneInfo` raises `ImportError`,
caught by the `except ImportError` on line 35, while
`ZoneInfo("Asia/Kolkata")` raises `ZoneInfoNotFoundError` — a `KeyError`
subclass, not an `ImportError` — when no time-zone database is available,
and that exception propagates to the caller.  Exceptions are `Except`. -/

/-- Environment of the `try` of `get_current_datetime` (lines 32-34):
`zoneinfo` imports and the tz database has `Asia/Kolkata`; or importing the
module raises `ImportError` (the caught case of line 35); or the module
imports but `ZoneInfo("Asia/Kolkata")` raises `ZoneInfoNotFoundError` (the
uncaught case). -/
inductive ZoneinfoEnv where
  | available
  | importFails
  | tzdataMissing

/-- The +5:30 offset in seconds. -/
def istOffsetSeconds : Nat := 19800

/-- Gregorian civil date `(year, month, day)` from days since 1970-01-01
(valid for non-negative day counts; standard days-to-civil algorithm). -/
def civilFromDays (z : Nat) : Nat × Nat × Nat :=
  let zz := z + 719468
  let era := zz / 146097
  let doe := zz % 146097
  let yoe := (doe - doe / 1460 + doe / 36524 - doe / 146096) / 365
  let y := yoe + era * 400
  let doy := doe - (365 * yoe + yoe / 4 - yoe / 100)
  let mp := (5 * doy + 2) / 153
  let d := doy - (153 * mp + 2) / 5 + 1
  let m := if mp < 10 then mp + 3 else mp - 9
  (if m ≤ 2 then y + 1 else y, m, d)

/-- Two-digit zero padding, as `strftime` does for `%m %d %H %M %S`. -/
def pad2 (n : Nat) : String :=
  if n < 10 then "0" ++ toString n else toString n

/-- Message of the exception `ZoneInfo("Asia/Kolkata")` raises when the
time-zone database is unavailable. -/
def zoneInfoNotFoundMsg : String :=
  "ZoneInfoNotFoundError: No time zone found with key Asia/Kolkata"

/-- Wall-clock seconds of the `try` of `get_current_datetime` (lines 32-36):
the `zoneinfo` branch is `datetime.now(ZoneInfo("Asia/Kolkata"))` and the
caught-`ImportError` branch is
`datetime.utcnow() + timedelta(hours=5, minutes=30)`, both UTC plus the
fixed +5:30 offset; with the tz database missing, `ZoneInfoNotFoundError`
escapes the `except ImportError` handler. -/
def istWallSeconds (env : ZoneinfoEnv) (utcNow : Nat) : Except String Nat :=
  match env with
  | .available => .ok (utcNow + istOffsetSeconds)
  | .importFails => .ok (utcNow + istOffsetSeconds)
  | .tzdataMissing => .error zoneInfoNotFoundMsg

/-- The `strftime("%Y-%m-%d %H:%M:%S (IST)")` of line 37 applied to a wall
clock in seconds. -/
def formatIst (t : Nat) : String :=
  let c := civilFromDays (t / 86400)
  let rem := t % 86400
  toString c.1 ++ "-" ++ pad2 c.2.1 ++ "-" ++ pad2 c.2.2 ++ " " ++
    pad2 (rem / 3600) ++ ":" ++ pad2 (rem % 3600 / 60) ++ ":" ++
    pad2 (rem % 60) ++ " (IST)"

/-- The `get_current_datetime` tool (lines 29-37): format the IST wall
clock, or propagate the unhandled exception. -/
def get_current_datetime (env : ZoneinfoEnv) (utcNow : Nat) :
    Except String String :=
  match istWallSeconds env utcNow with
  | .ok t => .ok (formatIst t)
  | .error e => .error e

/-! String helpers shared by the tool models.  Python slices, lowercases and
substring-tests `str` by code points, matched here on the character list. -/

/-- Python `s[:n]`. -/
def pyTake (s : String) (n : Nat) : String := ⟨s.data.take n⟩

/-- Python `s.lower()` (ASCII letters; the dispatch keys are ASCII). -/
def pyLower (s : String) : String := ⟨s.data.map Char.toLower⟩

/-- Whether `needle` starts `hay`. -/
def strSegAt : List Char → List Char → Bool
  | [], _ => true
  | _ :: _, [] => false
  | c :: cs, d :: ds => c == d && strSegAt cs ds

/-- Whether `needle` occurs contiguously in `hay`. -/
def strSeg : List Char → List Char → Bool
  | n, [] => n.isEmpty
  | n, d :: ds => strSegAt n (d :: ds) || strSeg n ds

/-- Python `needle in hay` on `str`. -/
def pyContains (needle hay : String) : Bool := strSeg needle.data hay.data

/-- Python `s.title()`: the first letter of each alphabetic run uppercased,
the rest lowercased (used in digest headers). -/
def pyTitleGo : List Char → Bool → List Char
  | [], _ => []
  | c :: cs, prevAlpha =>
      (if c.isAlpha then (if prevAlpha then c.toLower else c.toUpper) else c)
        :: pyTitleGo cs c.isAlpha

/-- Python `s.title()`. -/
def pyTitle (s : String) : String := ⟨pyTitleGo s.data false⟩

/-! Tool: `draft_professional_email` (`agent.py` lines 205-296). -/

/-- The `templates` dict of `draft_professional_email` (lines 218-275), as
`(key, subject, body)` in insertion order; Python dict iteration follows
insertion order, so the selection loop tests the keys in this order. -/
def emailTemplates : List (String × String × String) :=
  [("internship",
    "Application for [Position Name] - [Your Name]",
    "Dear [Recipient Name],\n\nI hope this email finds you well. My name is [Your Name], and I am a [Year] year student pursuing [Your Degree] at [Your College]. I am writing to express my strong interest in the [Position Name] position at [Company Name].\n\n{context_section}\n\nI am particularly drawn to [Company Name] because [specific reason related to company/role]. Through my coursework and projects, I have developed skills in [relevant skills], which I believe align well with the requirements of this position.\n\nI have attached my resume for your review. I would be grateful for the opportunity to discuss how I can contribute to your team. I am available for an interview at your convenience.\n\nThank you for considering my application. I look forward to hearing from you.\n\nBest regards,\n[Your Name]\n[Your Phone Number]\n[Your Email]\n[LinkedIn Profile]"),
   ("professor",
    "Request for Meeting - [Your Name] from [Course Name]",
    "Dear Professor [Last Name],\n\nI hope you are doing well. My name is [Your Name], and I am a student in your [Course Name] class ([Section/Time]).\n\n{context_section}\n\nI was wondering if you might have time for a brief meeting to discuss [specific topic]. I am available [mention your availability] and would be happy to meet at your convenience, whether in person during office hours or via video call.\n\nThank you very much for your time and consideration.\n\nRespectfully,\n[Your Name]\n[Student ID]\n[Your Email]"),
   ("networking",
    "Seeking Advice from [Industry] Professional - [Your Name]",
    "Dear [Recipient Name],\n\nI hope this message finds you well. My name is [Your Name], and I am a [Year] year student at [Your College] studying [Your Major]. I came across your profile on [LinkedIn/other platform] and was impressed by your work in [specific area].\n\n{context_section}\n\nI am eager to learn more about [specific field/topic] and would greatly appreciate the opportunity to hear about your experiences and any advice you might have for someone starting their career in this field.\n\nWould you be available for a brief 15-20 minute informational interview, either via phone or video call? I am flexible with timing and happy to work around your schedule.\n\nThank you for considering my request. I understand you have a busy schedule and would be grateful for any time you could spare.\n\nBest regards,\n[Your Name]\n[Your Email]\n[LinkedIn Profile]")]

/-- The keys of the `templates` dict in insertion order. -/
def templateKeys : List String := emailTemplates.map (fun t => t.1)

/-- Template-key selection loop of `draft_professional_email` (lines
277-281): start from `"internship"`, take the first key of the dict that is
a substring of `purpose.lower()`, `break` on the first hit. -/
def selectTemplateKey (purpose : String) : String :=
  match emailTemplates.find? (fun t => pyContains t.1 (pyLower purpose)) with
  | some t => t.1
  | none => "internship"

/-- Assembly of `draft_professional_email` (lines 283-296): the selected
template with `{context_section}` substituted, then the fixed tips. -/
def draft_professional_email (purpose _recipient context : String) : String :=
  let key := selectTemplateKey purpose
  let t := ((emailTemplates.find? (fun e => e.1 == key)).getD
    ("internship", "", "")).2
  let contextSection :=
    if context ≠ "" then "\n" ++ context ++ "\n"
    else "\n[Mention relevant experience, skills, or why you're reaching out]\n"
  "📧 Professional Email Template\n\n" ++ "Subject: " ++ t.1 ++ "\n\n" ++
    (t.2.replace "{context_section}" contextSection) ++
    "\n\n💡 Email Tips:\n" ++
    "✓ Keep it concise (under 200 words)\n" ++
    "✓ Proofread for grammar and spelling\n" ++
    "✓ Use a professional email address\n" ++
    "✓ Follow up after 5-7 days if no response\n" ++
    "✓ Be respectful of their time\n"

/-! Tool: `get_deadline_reminders` (`agent.py` lines 459-515).  The
`current_date`/`month` locals of lines 470-471 are never used and are not
modelled. -/

/-- The `"registration"` bullet list (lines 476-481). -/
def registrationDeadlines : List String :=
  ["Course Registration: Usually 2-4 weeks before semester starts",
   "Add/Drop Period: First 1-2 weeks of semester",
   "Late Registration Fee Deadline: Check your college calendar",
   "Major Declaration: Typically end of sophomore year"]

/-- The `"financial_aid"` bullet list (lines 482-487). -/
def financialAidDeadlines : List String :=
  ["Scholarship Applications: Varies by scholarship (often fall semester)",
   "FAFSA/Government Aid: Check national/state deadlines",
   "Tuition Payment: Before semester starts",
   "Work-Study Applications: Early in semester"]

/-- The `"career"` bullet list (lines 488-493). -/
def careerDeadlines : List String :=
  ["Career Fair Registration: 2-3 weeks before event",
   "Summer Internship Applications: October - February",
   "Resume Review Sessions: Ongoing, check career center",
   "On-Campus Recruitment: Varies by company"]

/-- The `"applications"` bullet list (lines 494-499). -/
def applicationsDeadlines : List String :=
  ["Graduate School Applications: September - December",
   "Study Abroad Programs: 6-12 months in advance",
   "Research Opportunities: Rolling basis",
   "Leadership Positions: Varies by organization"]

/-- The `deadlines_by_type` dict (lines 475-500). -/
def deadlines_by_type : List (String × List String) :=
  [("registration", registrationDeadlines),
   ("financial_aid", financialAidDeadlines),
   ("career", careerDeadlines),
   ("applications", applicationsDeadlines)]

/-- The lookup of line 502: exact key match with the registration list as
the default. -/
def relevant_deadlines (event_type : String) : List String :=
  (deadlines_by_type.lookup event_type).getD registrationDeadlines

/-- Digest header of line 473. -/
def deadlinesHeader (event_type : String) : String :=
  "📅 Important Deadlines & Reminders (" ++ pyTitle event_type ++ ")\n\n"

/-- Bullet rendering loop of lines 504-505. -/
def bulletBlock (ds : List String) : String :=
  String.join (ds.map (fun d => "• " ++ d ++ "\n"))

/-- Fixed tips block of lines 507-513. -/
def deadlineTipsBlock : String :=
  "\n\n🔔 Deadline Management Tips:\n" ++
  "1. Use a digital calendar (Google Calendar) with notifications\n" ++
  "2. Set multiple reminders (1 month, 1 week, 1 day before)\n" ++
  "3. Create a semester timeline at the start\n" ++
  "4. Subscribe to college newsletter/announcements\n" ++
  "5. Join student groups for peer reminders\n" ++
  "6. Check your college portal weekly\n"

/-- The `get_deadline_reminders` tool (lines 459-515). -/
def get_deadline_reminders (event_type : String) : String :=
  deadlinesHeader event_type ++ bulletBlock (relevant_deadlines event_type) ++
    deadlineTipsBlock

/-! Search-digest entry formatting (`agent.py` lines 72, 118, 188-190 and
444-445): each external result is rendered with its snippet sliced at a
fixed limit, an unconditional `...`, and the full link. -/

/-- One internship result entry, line 72 of `search_internships`
(`f"{i}. {title}\n   {content[:250]}...\n   🔗 {url}\n\n"`). -/
def internshipResultEntry (i : Nat) (title content url : String) : String :=
  toString i ++ ". " ++ title ++ "\n   " ++ pyTake content 250 ++ "..." ++
    "\n   🔗 " ++ url ++ "\n\n"

/-- One scholarship result entry, line 118 of `search_scholarships` (the
same f-string shape with the 250-character slice). -/
def scholarshipResultEntry (i : Nat) (title content url : String) : String :=
  toString i ++ ". " ++ title ++ "\n   " ++ pyTake content 250 ++ "..." ++
    "\n   🔗 " ++ url ++ "\n\n"

/-- One roadmap resource entry, lines 188-190 of `get_learning_roadmap`
(the slice limit is 200 there). -/
def roadmapResourceEntry (i : Nat) (title content url : String) : String :=
  toString i ++ ". " ++ title ++ "\n" ++ "   📝 " ++ pyTake content 200 ++
    "..." ++ "\n" ++ "   🔗 " ++ url ++ "\n\n"

/-- One process excerpt, lines 443-445 of `explain_college_process` (slice
limit 300; a falsy `content` contributes nothing). -/
def processExcerptEntry (content url : String) : String :=
  if content ≠ "" then
    pyTake content 300 ++ "..." ++ "\n\n" ++ "Source: " ++ url ++ "\n\n"
  else ""

/-! Exchange sequences, for the sliding-window property of the history. -/

/-- History produced by a sequence of completed exchanges starting from the
empty history: each exchange `(user, reply)` runs the history update of
`chat` (lines 681-688). -/
def runExchanges (ps : List (String × String)) : List PyVal :=
  ps.foldl (fun h p => updateHistory h p.1 p.2) []

/-- All turns of a sequence of exchanges in order, before any cap. -/
def allTurns (ps : List (String × String)) : List PyVal :=
  (ps.map (fun p => [humanTurn p.1, assistantTurn p.2])).flatten

/-! Helper lemmas. -/

/-- A nonempty string has `isEmpty = false`. -/
theorem isEmpty_false_of_ne {s : String} (h : s ≠ "") : s.isEmpty = false := by
  cases hb : s.isEmpty
  · rfl
  · exact absurd ((String.isEmpty_iff s).mp hb) h

/-- The final string check never produces the empty string. -/
theorem pyNormalize_ne_empty (v : PyVal) : pyNormalize v ≠ "" := by
  cases v with
  | vstr s =>
      by_cases h : s = ""
      · subst h; decide
      · simpa [pyNormalize, isEmpty_false_of_ne h] using h
  | vnone => show msgEncourage ≠ ""; decide
  | vint n => show msgEncourage ≠ ""; decide
  | vtuple xs => show msgEncourage ≠ ""; decide

/-- With a supplied executor, the body of `chat` computes the reply of the
inner `try` and the updated history, raising nothing. -/
theorem chatBody_some_eq (user : String) (b : AgentBehavior)
    (createRes : Except String AgentBehavior) (hist : List PyVal) :
    chatBody user (some b) createRes hist =
      Except.ok ((if runAgentOnce b = "" then msgMentor else runAgentOnce b),
        updateHistory hist user (runAgentOnce b)) := rfl

/-- Evaluation of `chat` with a supplied executor. -/
theorem chat_some_eq (user : String) (b : AgentBehavior)
    (createRes : Except String AgentBehavior) (hist : List PyVal) :
    chat user (some b) createRes hist =
      ((if runAgentOnce b = "" then msgMentor else runAgentOnce b),
        updateHistory hist user (runAgentOnce b)) := rfl

/-- Evaluation of `chat` when the executor has to be constructed and the
construction succeeds. -/
theorem chat_none_ok_eq (user : String) (b : AgentBehavior) (hist : List PyVal) :
    chat user none (.ok b) hist = chat user (some b) (.ok b) hist := rfl

/-- Evaluation of `chat` when the executor has to be constructed and the
construction raises: the top-level catch yields the generic reply. -/
theorem chat_none_err_eq (user e : String) (hist : List PyVal) :
    chat user none (.error e) hist = (msgGenericTech, hist) := rfl

/-- The reply of a completed inner `try` is never empty. -/
theorem if_reply_ne_empty (b : AgentBehavior) :
    (if runAgentOnce b = "" then msgMentor else runAgentOnce b) ≠ "" := by
  by_cases h : runAgentOnce b = ""
  · rw [if_pos h]; decide
  · rwa [if_neg h]

/-- C1: for every user input, every behaviour of the external agent executor
(returning `None`, a dict, an object with an `output` attribute, any other
object, or raising any exception — and even a raising `create_agent`
construction) and every content of the cached chat history, including
malformed non-tuple and non-string entries, `chat` returns a (non-empty)
string and no exception escapes to its caller; with a supplied executor the
body itself already completes without an exception, so the top-level catch
is needed only for a failing construction. -/
theorem c1_chat_never_raises (user : String) (execOpt : Option AgentBehavior)
    (createRes : Except String AgentBehavior) (hist : List PyVal) :
    (chat user execOpt createRes hist).1 ≠ "" ∧
    ∀ b : AgentBehavior,
      chatBody user (some b) createRes hist =
        Except.ok (chat user (some b) createRes hist) := by
  constructor
  · cases execOpt with
    | some b => rw [chat_some_eq]; exact if_reply_ne_empty b
    | none =>
        cases createRes with
        | ok b => rw [chat_none_ok_eq, chat_some_eq]; exact if_reply_ne_empty b
        | error e => rw [chat_none_err_eq]; show msgGenericTech ≠ ""; decide
  · intro b
    rw [chatBody_some_eq, chat_some_eq]

/-- C3: the reply-extraction precedence of `chat` (lines 661-676): a `None`
result gives the rephrase default; a dict result gives its `output` field
when that is a non-empty string, and the trouble default when the field is
falsy; a result with a non-`None` `output` attribute gives the attribute's
`str()` (subject to the final empty check); any other result gives its own
`str()` (subject to the final check); and the extracted reply is always a
non-empty string. -/
theorem c3_reply_extraction :
    extractReply .rnone = msgRephrase ∧
    (∀ (entries : List (String × PyVal)) (s : String),
      dictOutput entries = .vstr s → s ≠ "" →
      extractReply (.rdict entries) = s) ∧
    (∀ entries : List (String × PyVal),
      truthy (dictOutput entries) = false →
      extractReply (.rdict entries) = msgTrouble) ∧
    (∀ (out : PyVal) (strRepr : String), out ≠ .vnone →
      extractReply (.robj out strRepr) =
        if (pyStr out).isEmpty then msgEncourage else pyStr out) ∧
    (∀ strRepr : String,
      extractReply (.rplain strRepr) =
        if strRepr.isEmpty then msgEncourage else strRepr) ∧
    ∀ r : AgentResponse, extractReply r ≠ "" := by
  refine ⟨by decide, ?_, ?_, ?_, ?_, ?_⟩
  · intro entries s h hs
    simp [extractReply, extractRaw, h, truthy, isEmpty_false_of_ne hs,
      pyNormalize]
  · intro entries h
    simp only [extractReply, extractRaw, h, if_neg, Bool.false_eq_true,
      if_false]
    decide
  · intro out strRepr hout
    cases out with
    | vnone => exact absurd rfl hout
    | vstr s => rfl
    | vint n => rfl
    | vtuple xs => rfl
  · intro strRepr; rfl
  · intro r; exact pyNormalize_ne_empty (extractRaw r)

/-- Witness for C3: a dict result with a non-empty `output` string yields
exactly that string. -/
theorem c3_witness :
    dictOutput [("output", PyVal.vstr "All the best!")] =
        PyVal.vstr "All the best!" ∧
    "All the best!" ≠ "" ∧
    extractReply (.rdict [("output", PyVal.vstr "All the best!")]) =
      "All the best!" :=
  ⟨rfl, by decide, c3_reply_extraction.2.1 _ _ rfl (by decide)⟩

/-- A reply that passes the append check leads to the pair of turns being
appended and the window then re-cut to the last 30 entries. -/
theorem updateHistory_append_eq (hist : List PyVal) (user output : String)
    (h : output ≠ "" ∧ output ≠ sentinelNoResponse) :
    updateHistory hist user output =
      (hist ++ [humanTurn user, assistantTurn output]).drop
        ((hist.length + 2) - 30) := by
  dsimp only [updateHistory]
  rw [if_pos h]
  have hlen : (hist ++ [humanTurn user, assistantTurn output]).length =
      hist.length + 2 := by
    rw [List.length_append]; rfl
  by_cases hl : (hist ++ [humanTurn user, assistantTurn output]).length > 30
  · rw [if_pos hl, hlen]
  · rw [if_neg hl]
    rw [hlen] at hl
    have h0 : (hist.length + 2) - 30 = 0 := by omega
    rw [h0, List.drop_zero]

/-- A reply that fails the append check leaves the history without new
turns (only the cap is enforced). -/
theorem updateHistory_skip_eq (hist : List PyVal) (user output : String)
    (h : ¬ (output ≠ "" ∧ output ≠ sentinelNoResponse)) :
    updateHistory hist user output = hist.drop (hist.length - 30) := by
  dsimp only [updateHistory]
  rw [if_neg h]
  by_cases hl : hist.length > 30
  · rw [if_pos hl]
  · rw [if_neg hl]
    have h0 : hist.length - 30 = 0 := by omega
    rw [h0, List.drop_zero]

/-- The caught-exception fallback reply always passes the append check: it
is non-empty and differs from the sentinel. -/
theorem msgExcFallback_passes (e : String) :
    msgExcFallback e ≠ "" ∧ msgExcFallback e ≠ sentinelNoResponse := by
  have hlen : (msgExcFallback e).length = 108 + e.length := by
    have h108 : ("I encountered a technical issue, but I'm still here to help! Could you try rephrasing your question? Error: " : String).length = 108 := by decide
    rw [msgExcFallback, String.length_append, h108]
  constructor
  · intro h
    rw [h] at hlen
    have h0 : ("" : String).length = 0 := rfl
    omega
  · intro h
    have := congrArg String.length h
    rw [hlen] at this
    have h21 : sentinelNoResponse.length = 21 := by decide
    omega

/-- Counterexample to C4 as stated: the sentinel compared against in the
code is `"No response generated"` with a capital N, not the claimed
`"no response generated"`.  At the reply `"no response generated"` the
claimed biconditional demands no append, yet the code appends the pair (the
history grows from 0 to 2 entries). -/
theorem c4_counterexample :
    ¬ ("no response generated" ≠ "" ∧
        "no response generated" ≠ "no response generated") ∧
    (updateHistory [] "hi" "no response generated").length = 2 := by
  constructor
  · intro h
    exact h.2 rfl
  · decide

/-- C4 (amended): the `(user, reply)` pair is appended as two turns if and
only if the reply is non-empty and not equal to the exact sentinel
`"No response generated"`, after which the cap keeps the last 30 entries;
in particular the caught-exception fallback reply is always appended: the
new history ends with the two new turns and its length is
`min (old + 2) 30`. -/
theorem c4_history_append (hist : List PyVal) (user output : String) :
    (output ≠ "" ∧ output ≠ sentinelNoResponse →
      updateHistory hist user output =
        (hist ++ [humanTurn user, assistantTurn output]).drop
          ((hist.length + 2) - 30)) ∧
    (output = "" ∨ output = sentinelNoResponse →
      updateHistory hist user output = hist.drop (hist.length - 30)) ∧
    ∀ e : String,
      (updateHistory hist user (msgExcFallback e)).length =
          min (hist.length + 2) 30 ∧
      ∃ pre, updateHistory hist user (msgExcFallback e) =
        pre ++ [humanTurn user, assistantTurn (msgExcFallback e)] := by
  refine ⟨updateHistory_append_eq hist user output, ?_, ?_⟩
  · intro h
    apply updateHistory_skip_eq
    intro hc
    rcases h with h | h
    · exact hc.1 h
    · exact hc.2 h
  · intro e
    have heq := updateHistory_append_eq hist user _ (msgExcFallback_passes e)
    constructor
    · rw [heq, List.length_drop, List.length_append]
      have h2 : ([humanTurn user, assistantTurn (msgExcFallback e)]).length = 2 :=
        rfl
      rw [h2]
      omega
    · rw [heq, List.drop_append_of_le_length (by omega : (hist.length + 2) - 30 ≤ hist.length)]
      exact ⟨_, rfl⟩

/-- Witness for C4: a plain reply is appended and, below the cap, the new
history is exactly the old one with the two new turns. -/
theorem c4_witness :
    ("ok" ≠ "" ∧ "ok" ≠ sentinelNoResponse) ∧
    updateHistory [] "hi" "ok" =
      (([] : List PyVal) ++ [humanTurn "hi", assistantTurn "ok"]).drop
        ((List.length ([] : List PyVal) + 2) - 30) := by
  have h : "ok" ≠ "" ∧ "ok" ≠ sentinelNoResponse := ⟨by decide, by decide⟩
  exact ⟨h, (c4_history_append [] "hi" "ok").1 h⟩

/-- Appending one exchange to a run of exchanges. -/
theorem runExchanges_concat (ps : List (String × String)) (p : String × String) :
    runExchanges (ps ++ [p]) = updateHistory (runExchanges ps) p.1 p.2 :=
  List.foldl_concat _ _ _ _

/-- Turns of an extended exchange sequence. -/
theorem allTurns_concat (ps : List (String × String)) (p : String × String) :
    allTurns (ps ++ [p]) =
      allTurns ps ++ [humanTurn p.1, assistantTurn p.2] := by
  simp [allTurns]

/-- A sequence of `N` exchanges contributes `2 * N` turns. -/
theorem allTurns_length (ps : List (String × String)) :
    (allTurns ps).length = 2 * ps.length := by
  induction ps with
  | nil => rfl
  | cons p ps ih =>
      show ([humanTurn p.1, assistantTurn p.2] ++ allTurns ps).length = _
      rw [List.length_append, ih]
      have h2 : ([humanTurn p.1, assistantTurn p.2]).length = 2 := rfl
      rw [h2, List.length_cons]
      omega

/-- One window step: re-cutting the last 30 entries after appending two new
entries to an already-cut even-length history agrees with cutting the full
uncapped turn sequence. -/
theorem window_step (T : List PyVal) (x y : PyVal) (hev : 2 ∣ T.length) :
    (T.drop (T.length - 30) ++ [x, y]).drop
        (((T.drop (T.length - 30)).length + 2) - 30) =
      (T ++ [x, y]).drop ((T ++ [x, y]).length - 30) := by
  have hlen2 : (T ++ [x, y]).length = T.length + 2 := by
    rw [List.length_append]; rfl
  rw [List.length_drop, hlen2]
  by_cases hle : T.length ≤ 28
  · have e1 : T.length - 30 = 0 := by omega
    have e2 : T.length - (T.length - 30) + 2 - 30 = 0 := by omega
    have e3 : T.length + 2 - 30 = 0 := by omega
    have e4 : T.length - 0 + 2 - 30 = 0 := by omega
    simp only [e1, e2, e3, e4, List.drop_zero]
  · have h30 : 30 ≤ T.length := by
      obtain ⟨n, hn⟩ := hev
      omega
    have e2 : T.length - (T.length - 30) + 2 - 30 = 2 := by omega
    have hdl : 2 ≤ (T.drop (T.length - 30)).length := by
      rw [List.length_drop]; omega
    rw [e2, List.drop_append_of_le_length hdl, List.drop_drop]
    have e3 : T.length + 2 - 30 = T.length - 28 := by omega
    have e4 : T.length - 30 + 2 = T.length - 28 := by omega
    rw [e3, e4,
      List.drop_append_of_le_length (by omega : T.length - 28 ≤ T.length)]

/-- C2: starting from the empty history, after every sequence of completed
exchanges the retained history is exactly the last 30 entries of the full
turn sequence (oldest dropped first, sliding window), and its length is
`min (2 * N) 30`.  Applying the theorem to each prefix of a sequence gives
the property after each individual exchange. -/
theorem c2_history_window (ps : List (String × String))
    (hok : ∀ p ∈ ps, p.2 ≠ "" ∧ p.2 ≠ sentinelNoResponse) :
    runExchanges ps = (allTurns ps).drop ((allTurns ps).length - 30) ∧
    (runExchanges ps).length = min (2 * ps.length) 30 := by
  have key : ∀ qs : List (String × String),
      (∀ p ∈ qs, p.2 ≠ "" ∧ p.2 ≠ sentinelNoResponse) →
      runExchanges qs = (allTurns qs).drop ((allTurns qs).length - 30) := by
    intro qs
    induction qs using List.reverseRecOn with
    | nil => intro _; rfl
    | append_singleton qs p ih =>
        intro hall
        have hps : ∀ q ∈ qs, q.2 ≠ "" ∧ q.2 ≠ sentinelNoResponse :=
          fun q hq => hall q (List.mem_append_left _ hq)
        have hp : p.2 ≠ "" ∧ p.2 ≠ sentinelNoResponse :=
          hall p (List.mem_append_right _ (List.mem_singleton.mpr rfl))
        rw [runExchanges_concat, ih hps,
          updateHistory_append_eq _ _ _ hp, allTurns_concat]
        exact window_step (allTurns qs) _ _ ⟨qs.length, allTurns_length qs⟩
  refine ⟨key ps hok, ?_⟩
  rw [key ps hok, List.length_drop, allTurns_length]
  omega

/-- Witness for C2: sixteen completed exchanges exceed the cap; the history
ends at exactly 30 entries, the oldest two turns dropped. -/
theorem c2_witness :
    (∀ p ∈ List.replicate 16 ("u", "a"), p.2 ≠ "" ∧ p.2 ≠ sentinelNoResponse) ∧
    (runExchanges (List.replicate 16 ("u", "a")) =
        (allTurns (List.replicate 16 ("u", "a"))).drop
          ((allTurns (List.replicate 16 ("u", "a"))).length - 30) ∧
      (runExchanges (List.replicate 16 ("u", "a"))).length =
        min (2 * (List.replicate 16 ("u", "a")).length) 30) :=
  ⟨by decide, c2_history_window _ (by decide)⟩

/-- Counterexample to C5 as stated: a purpose containing `"professor"` does
not always select the professor template, because the dict keys are tested
in insertion order and `"internship"` comes first; on a purpose containing
both substrings the internship template wins. -/
theorem c5_counterexample :
    pyContains "professor" (pyLower "professor internship") = true ∧
    selectTemplateKey "professor internship" = "internship" ∧
    "internship" ≠ "professor" := ⟨rfl, rfl, by decide⟩

/-- C5 (amended): a purpose containing `"professor"` (case-insensitively)
but not `"internship"` selects the professor template; a purpose containing
none of the three keys selects the internship default; and when several keys
match, the first matching key in the insertion order internship, professor,
networking wins (stated by the three single-winner cases). -/
theorem c5_template_dispatch :
    (∀ p : String, pyContains "professor" (pyLower p) = true →
        pyContains "internship" (pyLower p) = false →
        selectTemplateKey p = "professor") ∧
    (∀ p : String, pyContains "internship" (pyLower p) = false →
        pyContains "professor" (pyLower p) = false →
        pyContains "networking" (pyLower p) = false →
        selectTemplateKey p = "internship") ∧
    (∀ p : String, pyContains "internship" (pyLower p) = true →
        selectTemplateKey p = "internship") ∧
    (∀ p : String, pyContains "internship" (pyLower p) = false →
        pyContains "professor" (pyLower p) = false →
        pyContains "networking" (pyLower p) = true →
        selectTemplateKey p = "networking") := by
  refine ⟨?_, ?_, ?_, ?_⟩ <;> intro p <;> intros <;>
    simp [selectTemplateKey, emailTemplates, List.find?, *]

/-- Witness for C5: a capitalised professor purpose without the internship
substring selects the professor template. -/
theorem c5_witness :
    pyContains "professor" (pyLower "Meeting with my Professor") = true ∧
    pyContains "internship" (pyLower "Meeting with my Professor") = false ∧
    selectTemplateKey "Meeting with my Professor" = "professor" :=
  ⟨rfl, rfl, c5_template_dispatch.1 "Meeting with my Professor" rfl rfl⟩

/-- C6: for every event type that is not exactly one of the four keys, the
selected bullet list is exactly the registration list and the digest is the
header followed by the registration bullets and the fixed tips (selection is
by exact key match only). -/
theorem c6_deadline_default (et : String)
    (h : et ∉ (["registration", "financial_aid", "career",
      "applications"] : List String)) :
    relevant_deadlines et = registrationDeadlines ∧
    get_deadline_reminders et =
      deadlinesHeader et ++ bulletBlock registrationDeadlines ++
        deadlineTipsBlock := by
  simp only [List.mem_cons, List.not_mem_nil, or_false, not_or] at h
  obtain ⟨h1, h2, h3, h4⟩ := h
  have hl : relevant_deadlines et = registrationDeadlines := by
    simp [relevant_deadlines, deadlines_by_type, List.lookup,
      beq_eq_false_iff_ne.mpr h1, beq_eq_false_iff_ne.mpr h2,
      beq_eq_false_iff_ne.mpr h3, beq_eq_false_iff_ne.mpr h4]
  exact ⟨hl, by rw [get_deadline_reminders, hl]⟩

/-- Witness for C6: the default event type `"general"` is not one of the
four keys and gets the registration list. -/
theorem c6_witness :
    ("general" ∉ (["registration", "financial_aid", "career",
      "applications"] : List String)) ∧
    relevant_deadlines "general" = registrationDeadlines :=
  ⟨by decide, (c6_deadline_default "general" (by decide)).1⟩

/-- A slice at a limit below the length keeps exactly `n` characters. -/
theorem pyTake_length_of_le {content : String} {n : Nat}
    (h : n ≤ content.length) : (pyTake content n).length = n := by
  show (content.data.take n).length = n
  rw [List.length_take]
  exact min_eq_left h

/-- The slice is an initial segment of the snippet. -/
theorem pyTake_split (content : String) (n : Nat) :
    content = pyTake content n ++ String.mk (content.data.drop n) := by
  show content = String.mk (content.data.take n ++ content.data.drop n)
  rw [List.take_append_drop]

/-- A slice at a limit at or above the length is the whole snippet. -/
theorem pyTake_of_le {s : String} {n : Nat} (h : s.length ≤ n) :
    pyTake s n = s := by
  show String.mk (s.data.take n) = s
  rw [List.take_of_length_le h]

/-- C7: for every search result whose snippet exceeds the stated limit (250
for the internship and scholarship digests, 200 for roadmap resources, 300
for process excerpts), the digest entry contains exactly the first `limit`
characters of the snippet followed by the ellipsis marker, and the full
untruncated link. -/
theorem c7_snippet_truncation (i : Nat) (title content url : String) :
    (250 < content.length →
      (∃ pre post, internshipResultEntry i title content url =
          pre ++ (pyTake content 250 ++ "...") ++ post) ∧
      (pyTake content 250).length = 250 ∧
      (∃ rest, content = pyTake content 250 ++ rest) ∧
      (∃ pre post, internshipResultEntry i title content url =
          pre ++ url ++ post)) ∧
    (250 < content.length →
      (∃ pre post, scholarshipResultEntry i title content url =
          pre ++ (pyTake content 250 ++ "...") ++ post) ∧
      (pyTake content 250).length = 250 ∧
      (∃ rest, content = pyTake content 250 ++ rest) ∧
      (∃ pre post, scholarshipResultEntry i title content url =
          pre ++ url ++ post)) ∧
    (200 < content.length →
      (∃ pre post, roadmapResourceEntry i title content url =
          pre ++ (pyTake content 200 ++ "...") ++ post) ∧
      (pyTake content 200).length = 200 ∧
      (∃ rest, content = pyTake content 200 ++ rest) ∧
      (∃ pre post, roadmapResourceEntry i title content url =
          pre ++ url ++ post)) ∧
    (300 < content.length →
      (∃ pre post, processExcerptEntry content url =
          pre ++ (pyTake content 300 ++ "...") ++ post) ∧
      (pyTake content 300).length = 300 ∧
      (∃ rest, content = pyTake content 300 ++ rest) ∧
      (∃ pre post, processExcerptEntry content url =
          pre ++ url ++ post)) := by
  refine ⟨fun h => ⟨?_, pyTake_length_of_le (le_of_lt h), ⟨_, pyTake_split content 250⟩, ?_⟩,
    fun h => ⟨?_, pyTake_length_of_le (le_of_lt h), ⟨_, pyTake_split content 250⟩, ?_⟩,
    fun h => ⟨?_, pyTake_length_of_le (le_of_lt h), ⟨_, pyTake_split content 200⟩, ?_⟩,
    fun h => ?_⟩
  · exact ⟨toString i ++ ". " ++ title ++ "\n   ",
      "\n   🔗 " ++ url ++ "\n\n",
      by simp only [internshipResultEntry, String.append_assoc]⟩
  · exact ⟨toString i ++ ". " ++ title ++ "\n   " ++ pyTake content 250 ++
      "..." ++ "\n   🔗 ", "\n\n",
      by simp only [internshipResultEntry, String.append_assoc]⟩
  · exact ⟨toString i ++ ". " ++ title ++ "\n   ",
      "\n   🔗 " ++ url ++ "\n\n",
      by simp only [scholarshipResultEntry, String.append_assoc]⟩
  · exact ⟨toString i ++ ". " ++ title ++ "\n   " ++ pyTake content 250 ++
      "..." ++ "\n   🔗 ", "\n\n",
      by simp only [scholarshipResultEntry, String.append_assoc]⟩
  · exact ⟨toString i ++ ". " ++ title ++ "\n" ++ "   📝 ",
      "\n" ++ "   🔗 " ++ url ++ "\n\n",
      by simp only [roadmapResourceEntry, String.append_assoc]⟩
  · exact ⟨toString i ++ ". " ++ title ++ "\n" ++ "   📝 " ++
      pyTake content 200 ++ "..." ++ "\n" ++ "   🔗 ", "\n\n",
      by simp only [roadmapResourceEntry, String.append_assoc]⟩
  · have hne : content ≠ "" := by
      intro he
      rw [he] at h
      exact absurd h (by decide)
    have hentry : processExcerptEntry content url =
        pyTake content 300 ++ "..." ++ "\n\n" ++ "Source: " ++ url ++ "\n\n" := by
      rw [processExcerptEntry, if_pos hne]
    refine ⟨⟨"", "\n\n" ++ "Source: " ++ url ++ "\n\n", ?_⟩,
      pyTake_length_of_le (le_of_lt h), ⟨_, pyTake_split content 300⟩,
      ⟨pyTake content 300 ++ "..." ++ "\n\n" ++ "Source: ", "\n\n", ?_⟩⟩
    · rw [hentry]
      have h0 : ∀ s : String, "" ++ s = s := fun s => rfl
      rw [h0]
      simp only [String.append_assoc]
    · rw [hentry]

/-- Witness for C7: a 251-character snippet in an internship entry is cut to
exactly 250 characters. -/
theorem c7_witness :
    250 < (String.mk (List.replicate 251 'a')).length ∧
    ((∃ pre post,
        internshipResultEntry 1 "T" (String.mk (List.replicate 251 'a')) "https://x" =
          pre ++ (pyTake (String.mk (List.replicate 251 'a')) 250 ++ "...") ++ post) ∧
      (pyTake (String.mk (List.replicate 251 'a')) 250).length = 250 ∧
      (∃ rest, String.mk (List.replicate 251 'a') =
          pyTake (String.mk (List.replicate 251 'a')) 250 ++ rest) ∧
      ∃ pre post,
        internshipResultEntry 1 "T" (String.mk (List.replicate 251 'a')) "https://x" =
          pre ++ "https://x" ++ post) :=
  ⟨by decide,
    (c7_snippet_truncation 1 "T" (String.mk (List.replicate 251 'a')) "https://x").1
      (by decide)⟩

/-- An entry that is not a 2-tuple is dropped by the formatting loop. -/
theorem formatEntry_not_pair {e : PyVal} (h : ∀ a b : PyVal, e ≠ .vtuple [a, b]) :
    formatEntry e = none := by
  cases e with
  | vnone => rfl
  | vstr s => rfl
  | vint n => rfl
  | vtuple xs =>
      cases xs with
      | nil => rfl
      | cons a t =>
          cases t with
          | nil => rfl
          | cons b t2 =>
              cases t2 with
              | nil => exact absurd rfl (h a b)
              | cons c t3 => rfl

/-- An assistant turn with empty or non-string content is dropped. -/
theorem formatEntry_assistant_bad {c : PyVal}
    (hc : (∀ s : String, c ≠ .vstr s) ∨ c = .vstr "") :
    formatEntry (.vtuple [.vstr "assistant", c]) = none := by
  rcases hc with hns | he
  · cases c with
    | vstr s => exact absurd rfl (hns s)
    | vnone => rfl
    | vint n => simp [formatEntry, isStrEq, truthy]
    | vtuple xs => simp [formatEntry, isStrEq, truthy]
  · subst he
    rfl

/-- A human turn is kept, whatever its content. -/
theorem formatEntry_human (c : PyVal) :
    formatEntry (.vtuple [.vstr "human", c]) = some (.human c) := rfl

/-- An assistant turn with non-empty string content is kept. -/
theorem formatEntry_assistant_ok {s : String} (h : s ≠ "") :
    formatEntry (.vtuple [.vstr "assistant", .vstr s]) = some (.ai s) := by
  simp [formatEntry, isStrEq, truthy, isEmpty_false_of_ne h]

/-- C8: formatting the stored history for the agent drops every entry that
is not a 2-tuple and every assistant turn whose text is empty or not a
string, keeps every human turn and every well-formed assistant turn, and
preserves the relative order of the kept turns (the surrounding formatted
history is unchanged in each case); being a total function, the loop never
raises on malformed entries. -/
theorem c8_history_filtering (h₁ h₂ : List PyVal) :
    (∀ e : PyVal, (∀ a b : PyVal, e ≠ .vtuple [a, b]) →
        formatChatHistory (h₁ ++ e :: h₂) =
          formatChatHistory h₁ ++ formatChatHistory h₂) ∧
    (∀ c : PyVal, ((∀ s : String, c ≠ .vstr s) ∨ c = .vstr "") →
        formatChatHistory (h₁ ++ .vtuple [.vstr "assistant", c] :: h₂) =
          formatChatHistory h₁ ++ formatChatHistory h₂) ∧
    (∀ c : PyVal,
        formatChatHistory (h₁ ++ .vtuple [.vstr "human", c] :: h₂) =
          formatChatHistory h₁ ++ .human c :: formatChatHistory h₂) ∧
    (∀ s : String, s ≠ "" →
        formatChatHistory (h₁ ++ .vtuple [.vstr "assistant", .vstr s] :: h₂) =
          formatChatHistory h₁ ++ .ai s :: formatChatHistory h₂) := by
  refine ⟨?_, ?_, ?_, ?_⟩
  · intro e he
    simp [formatChatHistory, List.filterMap_append, List.filterMap_cons,
      formatEntry_not_pair he]
  · intro c hc
    simp [formatChatHistory, List.filterMap_append, List.filterMap_cons,
      formatEntry_assistant_bad hc]
  · intro c
    simp [formatChatHistory, List.filterMap_append, List.filterMap_cons,
      formatEntry_human c]
  · intro s hs
    simp [formatChatHistory, List.filterMap_append, List.filterMap_cons,
      formatEntry_assistant_ok hs]

/-- Witness for C8: a non-tuple junk entry between a human turn and a
well-formed assistant turn is silently dropped. -/
theorem c8_witness :
    (∀ a b : PyVal, PyVal.vint 7 ≠ .vtuple [a, b]) ∧
    formatChatHistory
        ([.vtuple [.vstr "human", .vstr "hi"]] ++ PyVal.vint 7 ::
          [.vtuple [.vstr "assistant", .vstr "hello"]]) =
      formatChatHistory [.vtuple [.vstr "human", .vstr "hi"]] ++
        formatChatHistory [.vtuple [.vstr "assistant", .vstr "hello"]] :=
  ⟨fun _ _ h => PyVal.noConfusion h,
    (c8_history_filtering [.vtuple [.vstr "human", .vstr "hi"]]
        [.vtuple [.vstr "assistant", .vstr "hello"]]).1
      (PyVal.vint 7) (fun _ _ h => PyVal.noConfusion h)⟩

/-- Counterexample to C9 as stated: the claim demands that the tool never
raises under any condition, but when the `zoneinfo` module imports while the
time-zone database has no `Asia/Kolkata` entry, `ZoneInfo("Asia/Kolkata")`
raises `ZoneInfoNotFoundError`, a `KeyError` subclass that the
`except ImportError` of line 35 does not catch, and the exception reaches
the caller. -/
theorem c9_counterexample :
    get_current_datetime .tzdataMissing 0 =
      Except.error zoneInfoNotFoundMsg := rfl

/-- C9 (amended): in the environments the code handles — `zoneinfo`
available, or the module import failing with the caught `ImportError` — the
tool does not raise and returns the timestamp `YYYY-MM-DD HH:MM:SS (IST)`
of UTC plus the fixed +5:30 offset, identically in both branches (the civil
date of the shifted clock followed by two-digit hour, minute and second
fields in their ranges); but in the unhandled environment where the
time-zone database lacks `Asia/Kolkata`, the `ZoneInfoNotFoundError`
propagates to the caller. -/
theorem c9_datetime_format (env : ZoneinfoEnv) (utcNow : Nat) :
    (env ≠ .tzdataMissing →
      get_current_datetime env utcNow =
          get_current_datetime .available utcNow ∧
      ∃ y m d hh mi ss : Nat,
        hh < 24 ∧ mi < 60 ∧ ss < 60 ∧
        civilFromDays ((utcNow + istOffsetSeconds) / 86400) = (y, m, d) ∧
        hh = (utcNow + istOffsetSeconds) % 86400 / 3600 ∧
        mi = (utcNow + istOffsetSeconds) % 86400 % 3600 / 60 ∧
        ss = (utcNow + istOffsetSeconds) % 86400 % 60 ∧
        get_current_datetime env utcNow =
          Except.ok (toString y ++ "-" ++ pad2 m ++ "-" ++ pad2 d ++ " " ++
            pad2 hh ++ ":" ++ pad2 mi ++ ":" ++ pad2 ss ++ " (IST)")) ∧
    (env = .tzdataMissing →
      get_current_datetime env utcNow = Except.error zoneInfoNotFoundMsg) := by
  constructor
  · intro h
    have heq : get_current_datetime env utcNow =
        Except.ok (formatIst (utcNow + istOffsetSeconds)) := by
      cases env with
      | available => rfl
      | importFails => rfl
      | tzdataMissing => exact absurd rfl h
    refine ⟨by rw [heq]; rfl,
      (civilFromDays ((utcNow + istOffsetSeconds) / 86400)).1,
      (civilFromDays ((utcNow + istOffsetSeconds) / 86400)).2.1,
      (civilFromDays ((utcNow + istOffsetSeconds) / 86400)).2.2,
      (utcNow + istOffsetSeconds) % 86400 / 3600,
      (utcNow + istOffsetSeconds) % 86400 % 3600 / 60,
      (utcNow + istOffsetSeconds) % 86400 % 60,
      by omega, by omega, by omega, rfl, rfl, rfl, rfl, ?_⟩
    rw [heq]
    rfl
  · intro h
    subst h
    rfl

/-- Witness for C9: in the caught-`ImportError` environment at the epoch,
the tool returns the 05:30 IST timestamp of 1970-01-01 without raising. -/
theorem c9_witness :
    (ZoneinfoEnv.importFails ≠ ZoneinfoEnv.tzdataMissing) ∧
    (get_current_datetime .importFails 0 =
        get_current_datetime .available 0 ∧
      ∃ y m d hh mi ss : Nat,
        hh < 24 ∧ mi < 60 ∧ ss < 60 ∧
        civilFromDays ((0 + istOffsetSeconds) / 86400) = (y, m, d) ∧
        hh = (0 + istOffsetSeconds) % 86400 / 3600 ∧
        mi = (0 + istOffsetSeconds) % 86400 % 3600 / 60 ∧
        ss = (0 + istOffsetSeconds) % 86400 % 60 ∧
        get_current_datetime .importFails 0 =
          Except.ok (toString y ++ "-" ++ pad2 m ++ "-" ++ pad2 d ++ " " ++
            pad2 hh ++ ":" ++ pad2 mi ++ ":" ++ pad2 ss ++ " (IST)")) :=
  ⟨fun h => ZoneinfoEnv.noConfusion h,
    (c9_datetime_format .importFails 0).1 (fun h => ZoneinfoEnv.noConfusion h)⟩

/-- Sanity: the epoch renders as 05:30 IST on 1970-01-01. -/
theorem get_current_datetime_epoch :
    get_current_datetime .available 0 =
      Except.ok "1970-01-01 05:30:00 (IST)" := rfl

/-- C10: the ellipsis marker is appended to every snippet unconditionally:
even when the snippet is at or below the truncation limit (so no truncation
occurred, and the slice is the whole snippet) the digest entry still
contains the snippet immediately followed by `...`. -/
theorem c10_unconditional_ellipsis (i : Nat) (title content url : String) :
    (content.length ≤ 250 →
      ∃ pre post, internshipResultEntry i title content url =
        pre ++ (content ++ "...") ++ post) ∧
    (content.length ≤ 250 →
      ∃ pre post, scholarshipResultEntry i title content url =
        pre ++ (content ++ "...") ++ post) ∧
    (content.length ≤ 200 →
      ∃ pre post, roadmapResourceEntry i title content url =
        pre ++ (content ++ "...") ++ post) := by
  refine ⟨fun h => ?_, fun h => ?_, fun h => ?_⟩
  · exact ⟨toString i ++ ". " ++ title ++ "\n   ",
      "\n   🔗 " ++ url ++ "\n\n",
      by simp only [internshipResultEntry, pyTake_of_le h, String.append_assoc]⟩
  · exact ⟨toString i ++ ". " ++ title ++ "\n   ",
      "\n   🔗 " ++ url ++ "\n\n",
      by simp only [scholarshipResultEntry, pyTake_of_le h, String.append_assoc]⟩
  · exact ⟨toString i ++ ". " ++ title ++ "\n" ++ "   📝 ",
      "\n" ++ "   🔗 " ++ url ++ "\n\n",
      by simp only [roadmapResourceEntry, pyTake_of_le h, String.append_assoc]⟩

/-- Witness for C10: an empty snippet still gets the ellipsis marker. -/
theorem c10_witness :
    ("" : String).length ≤ 250 ∧
    ∃ pre post, internshipResultEntry 1 "T" "" "https://x" =
      pre ++ ("" ++ "...") ++ post :=
  ⟨by decide, (c10_unconditional_ellipsis 1 "T" "" "https://x").1 (by decide)⟩

end Agent
